import Mathlib

/-!
Verification development for the chess game-analysis core (`src/App.jsx`):
move-quality classification, mate-score normalization, per-move accuracy,
the evaluation cache around the engine channel, the multi-pass scheduler's
evaluation merging, and the engine-session watchdog.

Each definition is a shallow embedding of the corresponding JavaScript
function; chess-rules computations delegated to the external rules library
(SAN conversion, legality, sacrifice detection) are abstracted as oracle
parameters, since the code consumes only their results.
-/

namespace ChessAnalyzer

/-- Engine evaluation object: the code distinguishes `{cp: v}` and `{mate: v}`
objects by which property is present. -/
inductive Ev where
  | cp (v : Int)
  | mate (v : Int)
deriving DecidableEq, Repr

/-- Move-quality tags returned by `classifyMoveByDelta` and the upgrade rules. -/
inductive Tag where
  | Best
  | Excellent
  | Good
  | Inaccuracy
  | Mistake
  | Blunder
  | Miss
  | Brilliant
  | Great
deriving DecidableEq, Repr

/-- JavaScript `Math.sign` on integers. -/
def jsign (m : Int) : Int :=
  if 0 < m then 1 else if m < 0 then -1 else 0

/-- `mateToScore` (App.jsx 2049-2054): map a mate distance to a large
centipawn-like sentinel, `sign(mate) * (100000 - min(99, abs(mate)) * 1000)`. -/
def mateToScore (mate : Int) : Int :=
  jsign mate * (100000 - ((min 99 mate.natAbs : Nat) : Int) * 1000)

/-- The `flags` argument of `classifyMoveByDelta`. -/
structure Flags where
  deltaMateForMover : Option Int
  bestIsMate : Bool
deriving DecidableEq, Repr

/-- `classifyMoveByDelta` (App.jsx 2057-2099): classify a move by loss against
the engine best, in the mover's perspective, with the mate-distance branch,
the blunder-swing override and the missed-tactic rule. -/
def classifyMoveByDelta (bestCp playedCp : Option Int) (flags : Flags) : Tag :=
  let loss : Int := bestCp.getD 0 - playedCp.getD 0
  match flags.deltaMateForMover with
  | some d =>
    if d < 0 then Tag.Best
    else if d = 0 then Tag.Best
    else if d = 1 then Tag.Excellent
    else if d ≤ 3 then Tag.Good
    else if d ≤ 6 then Tag.Inaccuracy
    else if d ≤ 10 then Tag.Mistake
    else Tag.Mistake
  | none =>
    if loss < -10 then Tag.Best
    else if 300 < loss ∨
        (bestCp.isSome ∧ playedCp.isSome ∧
          ((300 ≤ bestCp.getD 0 ∧ playedCp.getD 0 ≤ 0) ∨
           (bestCp.getD 0 ≤ -300 ∧ 0 ≤ playedCp.getD 0))) then Tag.Blunder
    else if (flags.bestIsMate = true ∨ (bestCp.isSome ∧ 300 ≤ bestCp.getD 0)) ∧
        (playedCp.isSome ∧ playedCp.getD 0 ≤ 50 ∧ loss ≤ 200) then Tag.Miss
    else if loss ≤ 10 then Tag.Best
    else if loss ≤ 20 then Tag.Excellent
    else if loss ≤ 50 then Tag.Good
    else if loss ≤ 150 then Tag.Inaccuracy
    else if loss ≤ 300 then Tag.Mistake
    else Tag.Blunder

/-- Normalization of the pre-move evaluation to the mover's perspective
(App.jsx 2786-2787): mate scores go through `mateToScore`. -/
def bestCpOf (best : Ev) : Int :=
  match best with
  | Ev.mate m => mateToScore m
  | Ev.cp v => v

/-- Normalization of the post-move evaluation to the mover's perspective
(App.jsx 2789-2799): `mate 0` means the played move delivered checkmate
(`100000`); otherwise the sign flips because the opponent is to move. -/
def playedCpOf (after : Ev) : Int :=
  match after with
  | Ev.mate m => if m = 0 then 100000 else -mateToScore m
  | Ev.cp v => -v

/-- `bestMateForMover` (App.jsx 2802): distance of the forced mate the
pre-move evaluation gives the mover, when it gives one. -/
def bestMateForMover (best : Ev) : Option Int :=
  match best with
  | Ev.mate m => if 0 < m then some ((m.natAbs : Nat) : Int) else none
  | Ev.cp _ => none

/-- `playedMateForMover` (App.jsx 2803): distance of the forced mate still in
the mover's favor after the move (mate delivered, or the opponent to move is
being mated). -/
def playedMateForMover (after : Ev) : Option Int :=
  match after with
  | Ev.mate m => if m = 0 ∨ m < 0 then some ((m.natAbs : Nat) : Int) else none
  | Ev.cp _ => none

/-- `deltaMateForMover` (App.jsx 2804-2806): change in mate distance, defined
only when both evaluations keep a forced mate for the mover. -/
def deltaMateOf (best after : Ev) : Option Int :=
  match bestMateForMover best, playedMateForMover after with
  | some b, some p => some (p - b)
  | _, _ => none

/-- The `bestIsMate` flag passed to the classifier (App.jsx 2809). -/
def bestIsMateFor (best : Ev) : Bool :=
  match best with
  | Ev.mate m => decide (0 < m)
  | Ev.cp _ => false

/-- The flags the classification pipeline computes for a move
(App.jsx 2808-2811). -/
def annFlags (best after : Ev) : Flags :=
  { deltaMateForMover := deltaMateOf best after
    bestIsMate := bestIsMateFor best }

/-- The classifier tag for a move given the two adjacent evaluations, before
the SAN-match upgrade rules (App.jsx 2786-2811). -/
def annTag (best after : Ev) : Tag :=
  classifyMoveByDelta (some (bestCpOf best)) (some (playedCpOf after))
    (annFlags best after)

/-! ## Per-move accuracy (playerStats, App.jsx 2961-3071) -/

/-- Context of one analyzed move inside `playerStats`.  The SAN comparisons
and the capture/material check are produced by the external rules library
(`uciToSan`, `Chess#move`, `materialScore`); they enter the computation only
as the booleans recorded here, so they are abstracted as inputs. -/
structure MoveCtx where
  best : Ev
  after : Ev
  /-- the played SAN equals the SAN of the rank-1 line (App.jsx 3007) -/
  sanMatchesPv1 : Bool
  /-- the played SAN equals some alternative line within 10cp of the rank-1
  line (App.jsx 3012-3022) -/
  sanMatchesNearAlt : Bool
  /-- the move is a capture that keeps or restores the mover's material
  (App.jsx 3057-3063) -/
  captureKeepsMaterial : Bool
deriving DecidableEq, Repr

/-- `cpLoss` of `playerStats` (App.jsx 2990): centipawn loss clamped at 0. -/
def cpLossOf (best after : Ev) : Int :=
  max 0 (bestCpOf best - playedCpOf after)

/-- `beforeMateAgainst` (App.jsx 3027): distance of a mate the pre-move
evaluation asserts against the mover. -/
def beforeMateAgainst (best : Ev) : Option Int :=
  match best with
  | Ev.mate m => if m < 0 then some ((m.natAbs : Nat) : Int) else none
  | Ev.cp _ => none

/-- `afterMateAgainst` (App.jsx 3028): distance of a mate against the mover
after the move (opponent to move mates, so positive sign). -/
def afterMateAgainst (after : Ev) : Option Int :=
  match after with
  | Ev.mate m => if 0 < m then some ((m.natAbs : Nat) : Int) else none
  | Ev.cp _ => none

/-- The hybrid perfect-move flag of `playerStats` (App.jsx 3001-3033):
SAN match with the top line or a near-equal line, revoked when the move
accelerates a mate against the mover, restored when `cpLoss ≤ 10`. -/
def forcedPerfect (c : MoveCtx) : Bool :=
  let fp0 := c.sanMatchesPv1 || c.sanMatchesNearAlt
  let fp1 :=
    match beforeMateAgainst c.best, afterMateAgainst c.after with
    | some b, some a => if fp0 = true ∧ a < b then false else fp0
    | _, _ => fp0
  if fp1 = false ∧ cpLossOf c.best c.after ≤ 10 then true else fp1

/-- Branch C base curve (App.jsx 3045): `max(0, 100 - 0.45 * cpLoss^0.88)`. -/
noncomputable def baseAcc (cpLoss : Int) : ℝ :=
  max 0 (100 - 0.45 * (cpLoss : ℝ) ^ (0.88 : ℝ))

/-- Branch C criticality weighting (App.jsx 3048-3051):
`0.7 + 0.3 * exp(-((min(abs(bestCp), 200))/120)^2)`. -/
noncomputable def eqFactor (bestCp : Int) : ℝ :=
  0.7 + 0.3 * Real.exp (-(((min bestCp.natAbs 200 : Nat) : ℝ) / 120) ^ (2 : ℕ))

/-- The per-move accuracy of `playerStats` (App.jsx 2993-3071), including the
final clamp to `[0, 100]`. -/
noncomputable def moveAccuracy (c : MoveCtx) : ℝ :=
  let cpLoss := cpLossOf c.best c.after
  let raw : ℝ :=
    if forcedPerfect c = true then 100
    else if c.after = Ev.mate 0 then 100
    else if bestIsMateFor c.best = true then 30
    else
      let acc := baseAcc cpLoss * eqFactor (bestCpOf c.best)
      if c.captureKeepsMaterial = true ∧ cpLoss ≤ 30 then max acc 95 else acc
  max 0 (min 100 raw)


/-! ## Terminal positions and the evaluation channel (App.jsx 2391-2509, 3190-3203) -/

/-- The facts about a parsed position that `getTerminalEval` consumes from the
rules library: whether the side to move has a legal reply and whether it is in
check. -/
structure Position where
  hasLegalReply : Bool
  inCheck : Bool
deriving DecidableEq, Repr

/-- Rules-library semantics (`Chess#isCheckmate`): no legal reply while in
check. -/
def isCheckmate (p : Position) : Bool :=
  !p.hasLegalReply && p.inCheck

/-- Rules-library semantics (`Chess#isStalemate`): no legal reply and not in
check. -/
def isStalemate (p : Position) : Bool :=
  !p.hasLegalReply && !p.inCheck

/-- `getTerminalEval` (App.jsx 3191-3203): immediate evaluation for a terminal
position, `mate 0` on checkmate and `cp 0` on stalemate, else nothing. -/
def getTerminalEval (p : Position) : Option Ev :=
  if isCheckmate p = true then some (Ev.mate 0)
  else if isStalemate p = true then some (Ev.cp 0)
  else none

/-- `getTerminalEval` guarded by FEN parsing: the `try/catch` returns `null`
when the rules library rejects the FEN. -/
def getTerminalEvalOf (pos : Option Position) : Option Ev :=
  match pos with
  | some p => getTerminalEval p
  | none => none

/-- Search parameters of `analyzeFenOnce` after option normalization
(App.jsx 2396-2406). -/
structure AnalysisOptions where
  depth : Int
  multiPV : Int
  movetime : Option Int
deriving DecidableEq, Repr

/-- The structured evaluation `analyzeFenOnce` resolves with: top-level score,
best move, and the multipv list of `(rank, uci, score)`. -/
structure AnalysisResult where
  score : Ev
  bestmoveUci : Option String
  multipv : List (Int × String × Ev)
deriving DecidableEq, Repr

/-- Cache key components of App.jsx 2411/2418: the FEN together with the
normalized movetime, depth and multiPV (the code concatenates them into the
string `fen|mv:..|dp:..|mpv:..`). -/
abbrev CacheKey := String × Option Int × Int × Int

def mkKey (fen : String) (movetime : Option Int) (depth multiPV : Int) : CacheKey :=
  (fen, movetime, depth, multiPV)

/-- The in-memory evaluation cache (`evalCacheRef`, a `Map`), as an
association list; later insertions shadow earlier ones. -/
abbrev EvalCache := List (CacheKey × AnalysisResult)

def cacheLookup (c : EvalCache) (k : CacheKey) : Option AnalysisResult :=
  match c with
  | [] => none
  | (k2, v) :: rest => if k2 = k then some v else cacheLookup rest k

/-- Observable outcome of one `analyzeFenOnce` call: the resolved value, the
cache after the call, and the protocol commands posted to the engine worker. -/
structure FenOnceOutcome where
  result : Option AnalysisResult
  cache : EvalCache
  engineCmds : List String
deriving Repr

/-- The search command of App.jsx 2503-2507: `go movetime t` when a movetime
is set, else `go depth d`. -/
def goCommand (o : AnalysisOptions) : String :=
  match o.movetime with
  | some t => "go movetime " ++ toString t
  | none => "go depth " ++ toString o.depth

/-- `analyzeFenOnce` (App.jsx 2391-2509) as a cache transformer.
`chessPos` abstracts FEN parsing by the rules library and `engine` abstracts
the engine's line protocol: what the promise resolves with when a search is
actually issued.  The terminal short-circuit stores and resolves without
posting anything; a cache hit resolves without posting anything; otherwise
the option/position/search commands are posted and — as in the source —
the resolved result is NOT written to the cache. -/
def analyzeFenOnce (chessPos : String → Option Position)
    (engine : String → AnalysisOptions → Option AnalysisResult)
    (cache : EvalCache) (fen : String) (o : AnalysisOptions) : FenOnceOutcome :=
  match getTerminalEvalOf (chessPos fen) with
  | some tev =>
    let key := mkKey fen o.movetime o.depth o.multiPV
    let res : AnalysisResult := { score := tev, bestmoveUci := none, multipv := [] }
    { result := some res, cache := (key, res) :: cache, engineCmds := [] }
  | none =>
    let cacheKey := mkKey fen o.movetime o.depth o.multiPV
    match cacheLookup cache cacheKey with
    | some res => { result := some res, cache := cache, engineCmds := [] }
    | none =>
      { result := engine fen o
        cache := cache
        engineCmds :=
          ["setoption name MultiPV value " ++ toString o.multiPV,
           "position fen " ++ fen,
           goCommand o] }

/-! ## Engine session: candidates and watchdog (App.jsx 2183-2298) -/

/-- The candidate engine builds (App.jsx 2191-2195): the threaded priority
list holds a single build and the non-threaded list is empty. -/
def candidates : List String :=
  ["/stockfish/stockfish-17.1-8e4d048.js"]

/-- The closure state of the engine-session effect: current candidate index,
the monotonically increasing watchdog token, the readiness flag, and how many
workers have been created so far. -/
structure EngineSession where
  candidateIndex : Nat
  timeoutToken : Nat
  engineReady : Bool
  workersCreated : Nat
deriving DecidableEq, Repr

/-- `setupWorker` (App.jsx 2218-2283): registers a new worker and arms the
watchdog under a fresh token. -/
def setupWorker (s : EngineSession) : EngineSession :=
  { s with
    timeoutToken := s.timeoutToken + 1
    workersCreated := s.workersCreated + 1 }

/-- The watchdog callback (App.jsx 2224-2228): a stale token is ignored;
a current token sets `engineReady` to `false`.  It does not advance the
candidate list. -/
def watchdogFire (s : EngineSession) (myToken : Nat) : EngineSession :=
  if myToken = s.timeoutToken then { s with engineReady := false } else s

/-- The readiness signal handler (App.jsx 2235-2247): `uciok`/`readyok`
clears the watchdog and marks the engine ready. -/
def readySignal (s : EngineSession) : EngineSession :=
  { s with engineReady := true }

/-- `tryNextCandidate` (App.jsx 2198-2216): advance the index; set up the
next candidate if one remains (returning `true`), otherwise report failure
(returning `false`). -/
def tryNextCandidate (s : EngineSession) : Bool × EngineSession :=
  let s1 := { s with candidateIndex := s.candidateIndex + 1 }
  if s1.candidateIndex < candidates.length then (true, setupWorker s1)
  else (false, { s1 with engineReady := false })

/-- The worker `error`-event handler (App.jsx 2248-2251, 2261-2271):
advance via `tryNextCandidate`. -/
def workerError (s : EngineSession) : EngineSession :=
  (tryNextCandidate s).2

/-- The initial state of the effect (App.jsx 2285-2288): first candidate set
up, engine not ready. -/
def initialSession : EngineSession :=
  setupWorker { candidateIndex := 0, timeoutToken := 0, engineReady := false, workersCreated := 0 }

/-! ## Multi-pass evaluation merging in `analyzeAll` (App.jsx 2512-2601) -/

/-- `finalEvals` after the stable pass (App.jsx 2548-2568): with a stable
final pass, the stable result when present else the fast one
(`finalEvals[i] = ev2` or `next[i] ?? null`); without it, the fast map. -/
def evalsAfterPasses (stableFinalPass : Bool)
    (fast stable : Nat → Option AnalysisResult) (i : Nat) : Option AnalysisResult :=
  if stableFinalPass = true then
    match stable i with
    | some e => some e
    | none => fast i
  else fast i

/-- Per-index facts the auto-deepen verification loop (App.jsx 2570-2599)
reads from the rules library and the evaluations; abstracted as oracles. -/
structure DeepenCtx where
  /-- `fenList.length` -/
  numPositions : Nat
  /-- fen present, a played SAN exists and `isStrictPieceSacrificeOffer` holds -/
  sacCandidate : Nat → Bool
  /-- the current PV#1 SAN already equals the played SAN (App.jsx 2583-2585) -/
  alreadyPv1 : Nat → Bool
  /-- the deeper result's PV#1 SAN equals the played SAN (App.jsx 2590-2592) -/
  deepMatches : Nat → Bool

/-- The auto-deepen verification step (App.jsx 2570-2599): for a strict
sacrifice candidate below the last index whose played move is not yet PV#1,
the deeper evaluation replaces the recorded one only when it newly confirms
the played move as PV#1. -/
def deepenedEvals (ctx : DeepenCtx) (deep : Nat → Option AnalysisResult)
    (finalE : Nat → Option AnalysisResult) (i : Nat) : Option AnalysisResult :=
  if i + 1 < ctx.numPositions ∧ (finalE i).isSome = true ∧ ctx.sacCandidate i = true ∧
      ctx.alreadyPv1 i = false ∧ ctx.deepMatches i = true then
    match deep i with
    | some e => some e
    | none => finalE i
  else finalE i

/-- The evaluation map `analyzeAll` commits at the end of a run
(App.jsx 2601): stable-over-fast merge followed by the deepen step. -/
def analyzeAllEvals (ctx : DeepenCtx) (stableFinalPass : Bool)
    (fast stable deep : Nat → Option AnalysisResult) (i : Nat) : Option AnalysisResult :=
  deepenedEvals ctx deep (evalsAfterPasses stableFinalPass fast stable) i

/-! ## Concrete instances used by the theorems below -/

/-- A sample engine result carrying only a centipawn score. -/
def sampleResult (n : Int) : AnalysisResult :=
  { score := Ev.cp n, bestmoveUci := none, multipv := [] }

/-- A move that matches PV#1 while the engine sees mate against the mover
before the move (in 5) and a closer mate against the mover after it (in 3). -/
def c2ex : MoveCtx :=
  { best := Ev.mate (-5), after := Ev.mate 3
    sanMatchesPv1 := true, sanMatchesNearAlt := false, captureKeepsMaterial := false }

/-- A position that is not terminal: the side to move has a legal reply. -/
def nonTerminalPos : Position :=
  { hasLegalReply := true, inCheck := false }

/-- FEN-parsing oracle under which every position is non-terminal. -/
def nonTerminalParse : String → Option Position :=
  fun _ => some nonTerminalPos

/-- An engine oracle that always resolves with the same evaluation. -/
def fixedEngine : String → AnalysisOptions → Option AnalysisResult :=
  fun _ _ => some (sampleResult 17)

/-- The stable-pass search parameters of `analyzeAll` (depth 14, multiPV 5,
no movetime). -/
def stableOpts : AnalysisOptions :=
  { depth := 14, multiPV := 5, movetime := none }

/-- A two-position run whose single move is a strict sacrifice candidate, not
yet PV#1, and whose deeper check does NOT confirm the played move. -/
def deepenCtxNoConfirm : DeepenCtx :=
  { numPositions := 2, sacCandidate := fun _ => true
    alreadyPv1 := fun _ => false, deepMatches := fun _ => false }

/-- A two-position run whose single move is a strict sacrifice candidate, not
yet PV#1, and whose deeper check confirms the played move as PV#1. -/
def deepenCtxConfirm : DeepenCtx :=
  { numPositions := 2, sacCandidate := fun _ => true
    alreadyPv1 := fun _ => false, deepMatches := fun _ => true }


/-! ## Theorems -/

/-- Helper: the non-mate branch of `classifyMoveByDelta` on present scores,
with the option plumbing discharged. -/
theorem classify_cp (b p : Int) (bim : Bool) :
    classifyMoveByDelta (some b) (some p) ⟨none, bim⟩ =
      (if b - p < -10 then Tag.Best
       else if 300 < b - p ∨ (300 ≤ b ∧ p ≤ 0) ∨ (b ≤ -300 ∧ 0 ≤ p) then Tag.Blunder
       else if (bim = true ∨ 300 ≤ b) ∧ p ≤ 50 ∧ b - p ≤ 200 then Tag.Miss
       else if b - p ≤ 10 then Tag.Best
       else if b - p ≤ 20 then Tag.Excellent
       else if b - p ≤ 50 then Tag.Good
       else if b - p ≤ 150 then Tag.Inaccuracy
       else if b - p ≤ 300 then Tag.Mistake
       else Tag.Blunder) := by
  simp only [classifyMoveByDelta, Option.getD_some, Option.isSome_some, true_and]

/-- Claim C10: a move evaluated as strictly better than the engine's top line
is never penalized: with no mate-distance delta and the played score exceeding
the best score by more than 10 centipawns (loss < -10), `classifyMoveByDelta`
returns Best, before and regardless of the blunder-swing override. -/
theorem C10_better_than_pv1 (bestCp playedCp : Option Int) (bim : Bool)
    (h : bestCp.getD 0 - playedCp.getD 0 < -10) :
    classifyMoveByDelta bestCp playedCp ⟨none, bim⟩ = Tag.Best := by
  simp only [classifyMoveByDelta]
  rw [if_pos h]

/-- Witness for C10 at an input that also satisfies the blunder-swing
condition (bestCp ≤ -300 and playedCp ≥ 0), showing the override is not
reached. -/
theorem C10_better_than_pv1_witness :
    classifyMoveByDelta (some (-400)) (some 50) ⟨none, false⟩ = Tag.Best ∧
    ((-400 : Int) ≤ -300 ∧ (0 : Int) ≤ 50) :=
  ⟨C10_better_than_pv1 (some (-400)) (some 50) false (by decide), by decide⟩

/-- Claim C5, counterexample: at bestCp = 300, playedCp = 0 the loss is 300,
which the claim places in the Mistake band (150 < loss ≤ 300), but the
classifier's swing override returns Blunder. -/
theorem C5_counterexample :
    (0 : Int) ≤ 300 - 0 ∧ 150 < (300 : Int) - 0 ∧ (300 : Int) - 0 ≤ 300 ∧
    classifyMoveByDelta (some 300) (some 0) ⟨none, false⟩ ≠ Tag.Mistake ∧
    classifyMoveByDelta (some 300) (some 0) ⟨none, false⟩ = Tag.Blunder := by decide

/-- Claim C5, amended: the fixed loss thresholds (≤10 Best, ≤20 Excellent,
≤50 Good, ≤150 Inaccuracy, ≤300 Mistake, >300 Blunder) classify a non-mate
move with 0 ≤ loss, provided additionally that the blunder-swing condition
(bestCp ≥ 300 and playedCp ≤ 0) and the missed-tactic condition
((bestIsMate or bestCp ≥ 300) and playedCp ≤ 50 and loss ≤ 200) do not
hold. -/
theorem C5_amended (b p : Int) (bim : Bool) (h0 : 0 ≤ b - p)
    (hswing : ¬(300 ≤ b ∧ p ≤ 0))
    (hmiss : ¬((bim = true ∨ 300 ≤ b) ∧ p ≤ 50 ∧ b - p ≤ 200)) :
    (b - p ≤ 10 → classifyMoveByDelta (some b) (some p) ⟨none, bim⟩ = Tag.Best) ∧
    (10 < b - p ∧ b - p ≤ 20 →
      classifyMoveByDelta (some b) (some p) ⟨none, bim⟩ = Tag.Excellent) ∧
    (20 < b - p ∧ b - p ≤ 50 →
      classifyMoveByDelta (some b) (some p) ⟨none, bim⟩ = Tag.Good) ∧
    (50 < b - p ∧ b - p ≤ 150 →
      classifyMoveByDelta (some b) (some p) ⟨none, bim⟩ = Tag.Inaccuracy) ∧
    (150 < b - p ∧ b - p ≤ 300 →
      classifyMoveByDelta (some b) (some p) ⟨none, bim⟩ = Tag.Mistake) ∧
    (300 < b - p → classifyMoveByDelta (some b) (some p) ⟨none, bim⟩ = Tag.Blunder) := by
  have h1 : ¬(b - p < -10) := by omega
  refine ⟨?_, ?_, ?_, ?_, ?_, ?_⟩ <;> intro hr <;> rw [classify_cp, if_neg h1]
  · rw [if_neg (by omega), if_neg hmiss, if_pos (by omega)]
  · rw [if_neg (by omega), if_neg hmiss, if_neg (by omega), if_pos (by omega)]
  · rw [if_neg (by omega), if_neg hmiss, if_neg (by omega), if_neg (by omega),
      if_pos (by omega)]
  · rw [if_neg (by omega), if_neg hmiss, if_neg (by omega), if_neg (by omega),
      if_neg (by omega), if_pos (by omega)]
  · rw [if_neg (by omega), if_neg hmiss, if_neg (by omega), if_neg (by omega),
      if_neg (by omega), if_neg (by omega), if_pos (by omega)]
  · rw [if_pos (by omega)]

/-- Witness for C5 at bestCp = 100, playedCp = 70: loss 30 is in the Good
band and neither override condition holds. -/
theorem C5_amended_witness :
    classifyMoveByDelta (some 100) (some 70) ⟨none, false⟩ = Tag.Good :=
  (C5_amended 100 70 false (by decide) (by decide) (by decide)).2.2.1 (by decide)

/-- Claim C7, counterexample: at bestCp = 300, playedCp = 30 the mover
squanders a ≥300cp advantage down to ≤50cp and the move does not qualify as
Blunder, yet the classifier returns Mistake, not Miss (the Miss rule also
requires loss ≤ 200, impossible here). -/
theorem C7_counterexample :
    (300 : Int) ≤ 300 ∧ (30 : Int) ≤ 50 ∧
    classifyMoveByDelta (some 300) (some 30) ⟨none, false⟩ ≠ Tag.Blunder ∧
    classifyMoveByDelta (some 300) (some 30) ⟨none, false⟩ ≠ Tag.Miss ∧
    classifyMoveByDelta (some 300) (some 30) ⟨none, false⟩ = Tag.Mistake := by decide

/-- Claim C7, amended: the classifier tags a Miss only when additionally the
loss is at most 200 centipawns; under the claim's premise (bestCp ≥ 300 and
playedCp ≤ 50) the loss is at least 250, so the move is never tagged Miss:
it is Blunder exactly when loss > 300 or playedCp ≤ 0, else Mistake. -/
theorem C7_amended (b p : Int) (bim : Bool) (hb : 300 ≤ b) (hp : p ≤ 50) :
    classifyMoveByDelta (some b) (some p) ⟨none, bim⟩ ≠ Tag.Miss ∧
    classifyMoveByDelta (some b) (some p) ⟨none, bim⟩ =
      (if 300 < b - p ∨ p ≤ 0 then Tag.Blunder else Tag.Mistake) := by
  have hmiss : ¬((bim = true ∨ 300 ≤ b) ∧ p ≤ 50 ∧ b - p ≤ 200) :=
    fun h => absurd h.2.2 (by omega)
  have h1 : ¬(b - p < -10) := by omega
  rw [classify_cp, if_neg h1]
  by_cases h2 : 300 < b - p ∨ (300 ≤ b ∧ p ≤ 0) ∨ (b ≤ -300 ∧ 0 ≤ p)
  · rw [if_pos h2, if_pos (show 300 < b - p ∨ p ≤ 0 by omega)]
    exact ⟨by decide, rfl⟩
  · rw [if_neg h2, if_neg hmiss, if_neg (show ¬(b - p ≤ 10) by omega),
      if_neg (show ¬(b - p ≤ 20) by omega), if_neg (show ¬(b - p ≤ 50) by omega),
      if_neg (show ¬(b - p ≤ 150) by omega), if_pos (show b - p ≤ 300 by omega),
      if_neg (show ¬(300 < b - p ∨ p ≤ 0) by omega)]
    exact ⟨by decide, rfl⟩

/-- Witness for C7 at bestCp = 350, playedCp = 20: the squandering move is a
Blunder (playedCp ≤ 0 fails but loss 330 > 300), and at bestCp = 300,
playedCp = 30 it is a Mistake. -/
theorem C7_amended_witness :
    classifyMoveByDelta (some 350) (some 20) ⟨none, false⟩ ≠ Tag.Miss ∧
    classifyMoveByDelta (some 350) (some 20) ⟨none, false⟩ = Tag.Blunder := by
  have h := C7_amended 350 20 false (by decide) (by decide)
  refine ⟨h.1, ?_⟩
  rw [h.2, if_pos (by decide)]

/-- Claim C9, counterexample: `mateToScore` clamps the distance at 99, so the
strictly-order-preserving claim fails at distances 99 < 100, which map to the
same sentinel 1000. -/
theorem C9_counterexample :
    (0 : Int) < 99 ∧ (99 : Int) < 100 ∧
    mateToScore 99 = 1000 ∧ mateToScore 100 = 1000 ∧
    ¬(mateToScore 100 < mateToScore 99) := by decide

/-- Claim C9, amended: the mate-to-sentinel mapping is strictly
order-preserving over same-sign mate distances of magnitude at most the clamp
bound 99: for positive mates the closer mate gets the strictly larger
sentinel, for negative mates the closer mate gets the strictly more negative
sentinel. -/
theorem C9_amended (m1 m2 : Int) :
    (0 < m1 → m1 < m2 → m2 ≤ 99 → mateToScore m2 < mateToScore m1) ∧
    (m2 < m1 → m1 < 0 → -99 ≤ m2 → mateToScore m1 < mateToScore m2) := by
  unfold mateToScore jsign
  constructor
  · intro h1 h2 h3
    split_ifs <;> omega
  · intro h1 h2 h3
    split_ifs <;> omega

/-- Witness for C9: mate-in-1 outranks mate-in-2, and being mated in 1 is
strictly worse than being mated in 2. -/
theorem C9_amended_witness :
    mateToScore 2 < mateToScore 1 ∧ mateToScore (-1) < mateToScore (-2) :=
  ⟨(C9_amended 1 2).1 (by decide) (by decide) (by decide),
   (C9_amended (-1) (-2)).2 (by decide) (by decide) (by decide)⟩

/-- Claim C6: when both adjacent evaluations keep a forced mate in the
mover's favor (pre-move mate m > 0 for the mover; post-move mate delivered or
still against the opponent, m' ≤ 0), the classification depends only on the
change d = |m'| - m in mate distance: d ≤ 0 Best, d = 1 Excellent,
2 ≤ d ≤ 3 Good, 4 ≤ d ≤ 6 Inaccuracy, d > 6 Mistake — never Blunder. -/
theorem C6_mate_delta (m mp : Int) (hm : 0 < m) (hmp : mp ≤ 0) :
    annTag (Ev.mate m) (Ev.mate mp) ≠ Tag.Blunder ∧
    (((mp.natAbs : Int) - m ≤ 0) → annTag (Ev.mate m) (Ev.mate mp) = Tag.Best) ∧
    ((mp.natAbs : Int) - m = 1 → annTag (Ev.mate m) (Ev.mate mp) = Tag.Excellent) ∧
    (2 ≤ (mp.natAbs : Int) - m ∧ (mp.natAbs : Int) - m ≤ 3 →
      annTag (Ev.mate m) (Ev.mate mp) = Tag.Good) ∧
    (4 ≤ (mp.natAbs : Int) - m ∧ (mp.natAbs : Int) - m ≤ 6 →
      annTag (Ev.mate m) (Ev.mate mp) = Tag.Inaccuracy) ∧
    (6 < (mp.natAbs : Int) - m → annTag (Ev.mate m) (Ev.mate mp) = Tag.Mistake) := by
  have hb : bestMateForMover (Ev.mate m) = some m := by
    simp only [bestMateForMover, if_pos hm]
    congr 1
    omega
  have hp : playedMateForMover (Ev.mate mp) = some ((mp.natAbs : Nat) : Int) := by
    simp only [playedMateForMover]
    rw [if_pos (by omega)]
  have ht : annTag (Ev.mate m) (Ev.mate mp) =
      classifyMoveByDelta (some (bestCpOf (Ev.mate m))) (some (playedCpOf (Ev.mate mp)))
        ⟨some (((mp.natAbs : Nat) : Int) - m), bestIsMateFor (Ev.mate m)⟩ := by
    simp only [annTag, annFlags, deltaMateOf, hb, hp]
  rw [ht]
  simp only [classifyMoveByDelta]
  refine ⟨?_, ?_, ?_, ?_, ?_, ?_⟩
  · split_ifs <;> decide
  · intro hr
    rcases lt_or_eq_of_le hr with hlt | heq
    · rw [if_pos hlt]
    · rw [if_neg (by omega), if_pos heq]
  · intro hr
    rw [if_neg (by omega), if_neg (by omega), if_pos hr]
  · intro hr
    rw [if_neg (by omega), if_neg (by omega), if_neg (by omega), if_pos (by omega)]
  · intro hr
    rw [if_neg (by omega), if_neg (by omega), if_neg (by omega), if_neg (by omega),
      if_pos (by omega)]
  · intro hr
    rw [if_neg (by omega), if_neg (by omega), if_neg (by omega), if_neg (by omega),
      if_neg (by omega)]
    split_ifs <;> rfl

/-- Witness for C6: mate in 3 answered by a line that still mates in 4
(one ply slower) is Excellent, and is not a Blunder. -/
theorem C6_mate_delta_witness :
    annTag (Ev.mate 3) (Ev.mate (-4)) = Tag.Excellent ∧
    annTag (Ev.mate 3) (Ev.mate (-4)) ≠ Tag.Blunder :=
  ⟨(C6_mate_delta 3 (-4) (by decide) (by decide)).2.2.1 (by decide),
   (C6_mate_delta 3 (-4) (by decide) (by decide)).1⟩

/-- Claim C3, counterexample: when the watchdog of the first (and only)
candidate fires with a current token, the session reports failure
(engineReady = false) directly — the candidate index is unchanged and no
further worker is ever created, so no advancement to a next candidate
precedes the Failed report. -/
theorem C3_counterexample :
    (watchdogFire initialSession initialSession.timeoutToken).engineReady = false ∧
    (watchdogFire initialSession initialSession.timeoutToken).candidateIndex = 0 ∧
    (watchdogFire initialSession initialSession.timeoutToken).workersCreated =
      initialSession.workersCreated ∧
    candidates.length = 1 := by decide

/-- Claim C3, amended: on watchdog expiry the session reports failure without
trying another candidate (stale tokens are ignored; a current token only
clears readiness, leaving the candidate index and the set of created workers
untouched); automatic advancement to the next candidate happens only on
worker error events, via `tryNextCandidate`, which reports failure as soon as
the candidate list — which holds exactly one build — is exhausted. -/
theorem C3_amended (s : EngineSession) (t : Nat) :
    (watchdogFire s t).candidateIndex = s.candidateIndex ∧
    (watchdogFire s t).workersCreated = s.workersCreated ∧
    (t = s.timeoutToken → (watchdogFire s t).engineReady = false) ∧
    (t ≠ s.timeoutToken → watchdogFire s t = s) ∧
    (workerError s).candidateIndex = s.candidateIndex + 1 ∧
    (candidates.length ≤ s.candidateIndex + 1 → (workerError s).engineReady = false) := by
  refine ⟨?_, ?_, ?_, ?_, ?_, ?_⟩
  · unfold watchdogFire
    split_ifs <;> rfl
  · unfold watchdogFire
    split_ifs <;> rfl
  · intro ht
    unfold watchdogFire
    rw [if_pos ht]
  · intro ht
    unfold watchdogFire
    rw [if_neg ht]
  · simp only [workerError, tryNextCandidate, setupWorker, candidates]
    split_ifs <;> rfl
  · intro hlen
    simp only [candidates, List.length_singleton] at hlen
    simp only [workerError, tryNextCandidate, setupWorker, candidates,
      List.length_singleton]
    rw [if_neg (by omega)]

/-- Witness for C3: the fired watchdog on the initial session clears
readiness, and a worker error on the initial session exhausts the one-element
candidate list and reports failure. -/
theorem C3_amended_witness :
    (watchdogFire initialSession initialSession.timeoutToken).engineReady = false ∧
    (workerError initialSession).engineReady = false :=
  ⟨(C3_amended initialSession initialSession.timeoutToken).2.2.1 rfl,
   (C3_amended initialSession 0).2.2.2.2.2 (by decide)⟩

/-- Claim C4, counterexample: the deeper verification pass produced a result
for position 0 (the sacrifice candidate), but since the deeper best line did
not match the played move, the recorded evaluation stays the stable pass's —
the later pass's produced result is not the one recorded. -/
theorem C4_counterexample :
    (fun _ : Nat => some (sampleResult 3)) 0 = some (sampleResult 3) ∧
    analyzeAllEvals deepenCtxNoConfirm true (fun _ => some (sampleResult 1))
      (fun _ => some (sampleResult 2)) (fun _ => some (sampleResult 3)) 0 =
      some (sampleResult 2) ∧
    analyzeAllEvals deepenCtxNoConfirm true (fun _ => some (sampleResult 1))
      (fun _ => some (sampleResult 2)) (fun _ => some (sampleResult 3)) 0 ≠
      some (sampleResult 3) := by decide

/-- Claim C4, amended: the stable pass's evaluation always supersedes the
fast pass's, which is used only where the stable pass produced nothing; the
deeper verification pass's evaluation supersedes the recorded one exactly
when it newly confirms the played move (sacrifice candidate, not already
PV#1, deeper best line matches); an earlier pass's evaluation never
overwrites a later pass's recorded one. -/
theorem C4_amended (ctx : DeepenCtx) (fast stable deep : Nat → Option AnalysisResult)
    (i : Nat) :
    (i + 1 < ctx.numPositions →
      (evalsAfterPasses true fast stable i).isSome = true →
      ctx.sacCandidate i = true → ctx.alreadyPv1 i = false → ctx.deepMatches i = true →
      ∀ d, deep i = some d → analyzeAllEvals ctx true fast stable deep i = some d) ∧
    (∀ e, stable i = some e →
      analyzeAllEvals ctx true fast stable deep i = some e ∨
      ∃ d, deep i = some d ∧ analyzeAllEvals ctx true fast stable deep i = some d) ∧
    (stable i = none →
      analyzeAllEvals ctx true fast stable deep i = fast i ∨
      ∃ d, deep i = some d ∧ analyzeAllEvals ctx true fast stable deep i = some d) := by
  unfold analyzeAllEvals deepenedEvals
  refine ⟨?_, ?_, ?_⟩
  · intro h1 h2 h3 h4 h5 d hd
    rw [if_pos ⟨h1, h2, h3, h4, h5⟩, hd]
  · intro e he
    by_cases hc : i + 1 < ctx.numPositions ∧ (evalsAfterPasses true fast stable i).isSome = true ∧
        ctx.sacCandidate i = true ∧ ctx.alreadyPv1 i = false ∧ ctx.deepMatches i = true
    · rw [if_pos hc]
      cases hd : deep i with
      | none => left; simp [evalsAfterPasses, he]
      | some d => right; exact ⟨d, rfl, rfl⟩
    · rw [if_neg hc]
      left
      simp [evalsAfterPasses, he]
  · intro he
    by_cases hc : i + 1 < ctx.numPositions ∧ (evalsAfterPasses true fast stable i).isSome = true ∧
        ctx.sacCandidate i = true ∧ ctx.alreadyPv1 i = false ∧ ctx.deepMatches i = true
    · rw [if_pos hc]
      cases hd : deep i with
      | none => left; simp [evalsAfterPasses, he]
      | some d => right; exact ⟨d, rfl, rfl⟩
    · rw [if_neg hc]
      left
      simp [evalsAfterPasses, he]

/-- Witness for C4: when the deeper check confirms the played move, the
deeper evaluation is the one recorded. -/
theorem C4_amended_witness :
    analyzeAllEvals deepenCtxConfirm true (fun _ => some (sampleResult 1))
      (fun _ => some (sampleResult 2)) (fun _ => some (sampleResult 3)) 0 =
      some (sampleResult 3) :=
  (C4_amended deepenCtxConfirm (fun _ => some (sampleResult 1))
      (fun _ => some (sampleResult 2)) (fun _ => some (sampleResult 3)) 0).1
    (by decide) (by decide) (by decide) (by decide) (by decide) (sampleResult 3) rfl

/-- Claim C8: for a position whose side to move has no legal reply, the
channel returns immediately without sending any command to the engine: mate
of distance 0 when in check (checkmate), centipawns 0 otherwise
(stalemate). -/
theorem C8_terminal (chessPos : String → Option Position)
    (engine : String → AnalysisOptions → Option AnalysisResult)
    (cache : EvalCache) (fen : String) (o : AnalysisOptions) (pos : Position)
    (hp : chessPos fen = some pos) (hnr : pos.hasLegalReply = false) :
    (analyzeFenOnce chessPos engine cache fen o).engineCmds = [] ∧
    (pos.inCheck = true →
      (analyzeFenOnce chessPos engine cache fen o).result =
        some { score := Ev.mate 0, bestmoveUci := none, multipv := [] }) ∧
    (pos.inCheck = false →
      (analyzeFenOnce chessPos engine cache fen o).result =
        some { score := Ev.cp 0, bestmoveUci := none, multipv := [] }) := by
  cases hc : pos.inCheck with
  | false =>
    have hterm : getTerminalEvalOf (chessPos fen) = some (Ev.cp 0) := by
      rw [hp]
      simp [getTerminalEvalOf, getTerminalEval, isCheckmate, isStalemate, hnr, hc]
    refine ⟨?_, ?_, ?_⟩ <;> simp [analyzeFenOnce, hterm, hc]
  | true =>
    have hterm : getTerminalEvalOf (chessPos fen) = some (Ev.mate 0) := by
      rw [hp]
      simp [getTerminalEvalOf, getTerminalEval, isCheckmate, isStalemate, hnr, hc]
    refine ⟨?_, ?_, ?_⟩ <;> simp [analyzeFenOnce, hterm, hc]

/-- Witness for C8: a checkmated position resolves to mate 0 with no engine
commands. -/
theorem C8_terminal_witness :
    (analyzeFenOnce (fun _ => some ⟨false, true⟩) (fun _ _ => none) [] "fenMated"
        ⟨12, 5, none⟩).engineCmds = [] ∧
    (analyzeFenOnce (fun _ => some ⟨false, true⟩) (fun _ _ => none) [] "fenMated"
        ⟨12, 5, none⟩).result =
      some { score := Ev.mate 0, bestmoveUci := none, multipv := [] } := by
  have h := C8_terminal (fun _ => some ⟨false, true⟩) (fun _ _ => none) [] "fenMated"
    ⟨12, 5, none⟩ ⟨false, true⟩ rfl rfl
  exact ⟨h.1, h.2.1 rfl⟩

/-- Claim C1, at the failing input: two identical non-terminal requests
(stable-pass parameters: no movetime, depth 14, multiPV 5) both send
position/search commands to the engine, because the first request leaves the
cache empty — `analyzeFenOnce` writes the cache only on the
terminal-position path, never after an engine search. -/
theorem C1_engine_invoked_twice :
    (analyzeFenOnce nonTerminalParse fixedEngine [] "fen0" stableOpts).engineCmds ≠ [] ∧
    (analyzeFenOnce nonTerminalParse fixedEngine [] "fen0" stableOpts).cache = [] ∧
    (analyzeFenOnce nonTerminalParse fixedEngine
        (analyzeFenOnce nonTerminalParse fixedEngine [] "fen0" stableOpts).cache
        "fen0" stableOpts).engineCmds ≠ [] := by decide

/-- Claim C2, counterexample: a move whose SAN equals the engine's rank-1
line while the pre-move evaluation asserts mate against the mover in 5 and
the post-move evaluation asserts mate against the mover in 3 has its
forced-perfect flag revoked (the move accelerates the mate against the
mover), and its accuracy falls to the base curve — strictly below 100. -/
theorem C2_counterexample :
    c2ex.sanMatchesPv1 = true ∧ moveAccuracy c2ex ≠ 100 := by
  refine ⟨rfl, ne_of_lt ?_⟩
  have h1 : ¬(forcedPerfect c2ex = true) := by decide
  have h2 : ¬(c2ex.after = Ev.mate 0) := by decide
  have h3 : ¬(bestIsMateFor c2ex.best = true) := by decide
  have h4 : ¬(c2ex.captureKeepsMaterial = true ∧ cpLossOf c2ex.best c2ex.after ≤ 30) := by
    decide
  show max (0:ℝ) (min 100 (if forcedPerfect c2ex = true then (100:ℝ)
      else if c2ex.after = Ev.mate 0 then 100
      else if bestIsMateFor c2ex.best = true then 30
      else if c2ex.captureKeepsMaterial = true ∧ cpLossOf c2ex.best c2ex.after ≤ 30 then
        max (baseAcc (cpLossOf c2ex.best c2ex.after) * eqFactor (bestCpOf c2ex.best)) 95
      else baseAcc (cpLossOf c2ex.best c2ex.after) * eqFactor (bestCpOf c2ex.best))) < 100
  rw [if_neg h1, if_neg h2, if_neg h3, if_neg h4]
  have hL : cpLossOf c2ex.best c2ex.after = 2000 := by decide
  have hB : bestCpOf c2ex.best = -95000 := by decide
  rw [hL, hB]
  have hb0 : (0:ℝ) ≤ baseAcc 2000 := le_max_left _ _
  have hb1 : baseAcc 2000 < 100 := by
    unfold baseAcc
    apply max_lt (by norm_num)
    have hcast : ((2000 : Int) : ℝ) = (2000 : ℝ) := by norm_num
    rw [hcast]
    have hpow : (0:ℝ) < 0.45 * (2000:ℝ) ^ (0.88:ℝ) := by positivity
    linarith
  have he0 : (0:ℝ) ≤ eqFactor (-95000) := by
    unfold eqFactor
    positivity
  have he1 : eqFactor (-95000) ≤ 1 := by
    unfold eqFactor
    have harg : -(((min (Int.natAbs (-95000)) 200 : Nat) : ℝ) / 120) ^ (2:ℕ) ≤ 0 :=
      neg_nonpos.mpr (sq_nonneg _)
    have hexp := Real.exp_le_exp.mpr harg
    rw [Real.exp_zero] at hexp
    linarith
  have hprod : baseAcc 2000 * eqFactor (-95000) < 100 :=
    lt_of_le_of_lt (mul_le_of_le_one_right hb0 he1) hb1
  exact max_lt (by norm_num) (min_lt_iff.mpr (Or.inr hprod))

/-- Claim C2, amended: a move matching the engine's rank-1 line has accuracy
exactly 100 provided the revocation case does not apply: it is not the case
that the pre-move evaluation asserts a mate against the mover and the
post-move evaluation a strictly closer mate against the mover. -/
theorem C2_amended (c : MoveCtx) (hsan : c.sanMatchesPv1 = true)
    (hacc : ∀ b a, beforeMateAgainst c.best = some b → afterMateAgainst c.after = some a →
      b ≤ a) :
    moveAccuracy c = 100 := by
  have hfp : forcedPerfect c = true := by
    unfold forcedPerfect
    simp only [hsan, Bool.true_or]
    cases hb : beforeMateAgainst c.best with
    | none =>
      cases ha : afterMateAgainst c.after <;> simp
    | some b =>
      cases ha : afterMateAgainst c.after with
      | none => simp
      | some a =>
        have hab : ¬(a < b) := not_lt.mpr (hacc b a hb ha)
        simp [hab]
  unfold moveAccuracy
  simp only [hfp, if_true]
  norm_num

/-- Witness for C2: a PV#1-matching move with plain centipawn evaluations on
both sides scores exactly 100. -/
theorem C2_amended_witness :
    (⟨Ev.cp 20, Ev.cp (-15), true, false, false⟩ : MoveCtx).sanMatchesPv1 = true ∧
    moveAccuracy ⟨Ev.cp 20, Ev.cp (-15), true, false, false⟩ = 100 :=
  ⟨rfl, C2_amended _ rfl (fun b a hb _ => by simp [beforeMateAgainst] at hb)⟩

end ChessAnalyzer
